import Mathlib

/-!
Shallow embedding of the battle engine of `dex.py` (Project Dex, a turn-based
multiplayer RPG draft on Google App Engine), together with theorems checking
the natural-language specification of the engine against the code.

Conventions of the embedding:
* Python integers become `Int`; list lengths and loop counters become `Nat`.
* Python lists become `List`; `list.pop()` (pop from the end) becomes
  `List.dropLast`, `list[-1]` becomes `List.getLast?`.
* Code that can raise is embedded as `Except String`, carrying the Python
  exception message; code lines that raise unconditionally (several methods of
  the `Battle` class contain such slips) are embedded as the corresponding
  `Except.error` at the exact program point where CPython 2 would raise.
* The one source of randomness (`random.randint(1, 5)` inside `Heal.affect`)
  is passed in explicitly as an argument.
-/

/-- Ability variants defined in `dex.py`: the abstract base class `Ability`
(lines 21-34), `Heal` (37-44) and `Roar` (47-53). -/
inductive AbilityKind where
  | base
  | heal
  | roar
deriving DecidableEq

/-- Mana cost of each ability: the base class sets `cost = 1` (line 27),
`Heal` overrides it with 2 (line 40), `Roar` inherits 1. -/
def AbilityKind.cost : AbilityKind → Int
  | .base => 1
  | .heal => 2
  | .roar => 1

/-- A `Hero` (dex.py lines 56-88): name plus the class-level stats
`h_p`, `m_p`, `defense`, `strength`, `agility` and one ability. -/
structure Hero where
  name : String
  h_p : Int
  m_p : Int
  defense : Int
  strength : Int
  agility : Int
  ability : AbilityKind
deriving DecidableEq

/-- `Hero.__init__` with the class defaults of lines 58-63: every stat is 1
and the ability is the abstract base ability. -/
def Hero.init (name : String) : Hero :=
  { name := name, h_p := 1, m_p := 1, defense := 1, strength := 1, agility := 1,
    ability := AbilityKind.base }

/-- `WeakMage` (lines 91-98): overrides `agility = 2`, `m_p = 2`,
`ability = Heal()`. -/
def WeakMage.init (name : String) : Hero :=
  { Hero.init name with m_p := 2, agility := 2, ability := AbilityKind.heal }

/-- `WeakFighter` (lines 101-106): overrides `ability = Roar()`. -/
def WeakFighter.init (name : String) : Hero :=
  { Hero.init name with ability := AbilityKind.roar }

/-- A `Team` (dex.py lines 109-129): the battle squad object holding the
pooled `h_p`, `m_p` and `defense` stats, the member roster and the stack of
currently defending heroes. -/
structure Team where
  name : String
  h_p : Int
  m_p : Int
  defense : Int
  players : List Hero
  defendors : List Hero
deriving DecidableEq

/-- `Team.__init__` (lines 116-123): starting from the class-level zero pools
(lines 112-114), each member adds `player.h_p` to the health pool,
`player.strength` to the mana pool — the source literally adds `strength`,
not `m_p`, on line 121 — and `player.defense` to the defense pool;
`defendors` starts empty. -/
def Team.init (name : String) (players : List Hero) : Team :=
  { name := name
    h_p := players.foldl (fun acc p => acc + p.h_p) 0
    m_p := players.foldl (fun acc p => acc + p.strength) 0
    defense := players.foldl (fun acc p => acc + p.defense) 0
    players := players
    defendors := [] }

/-- `Team.reset` (lines 125-129): clears the defender stack. -/
def Team.reset (self : Team) : Team :=
  { self with defendors := [] }

/-- `Heal.affect` (lines 42-44): raises the target HP pool by
`random.randint(1, 5)`; the random draw is passed in explicitly. -/
def Heal.affect (rand : Int) (target : Team) : Team :=
  { target with h_p := target.h_p + rand }

/-- `Roar.affect` (lines 51-53): reduces the target defense pool by 1,
unconditionally — there is no clamp at zero. -/
def Roar.affect (target : Team) : Team :=
  { target with defense := target.defense - 1 }

/-- Iterated application of `Roar.affect`, used to state what repeated casts
of Roar do to the defense pool. -/
def roarIter : Nat → Team → Team
  | 0, t => t
  | n + 1, t => roarIter n (Roar.affect t)

/-- `Hero.attack` (lines 68-79): `dmg = self.strength`; if the target has a
non-empty defender stack (`if target.defendors:`), `dmg -= target.defense`
and the last defender is popped (`target.defendors.pop()`); if the remaining
`dmg > 0.0` it is subtracted from the target HP pool; `dmg` is returned.
Result is the updated target paired with the returned damage. -/
def Hero.attack (self : Hero) (target : Team) : Team × Int :=
  let dmg : Int := self.strength
  let step : Int × Team :=
    if target.defendors = [] then (dmg, target)
    else (dmg - target.defense, { target with defendors := target.defendors.dropLast })
  let t := if step.1 > 0 then { step.2 with h_p := step.2.h_p - step.1 } else step.2
  (t, step.1)

/-- `Hero.defend` (lines 81-85): appends this hero to the target team
defender stack. -/
def Hero.defend (self : Hero) (target : Team) : Team :=
  { target with defendors := target.defendors ++ [self] }

/-- `end_game` (lines 132-138): scans the teams and reports whether some team
HP pool has dropped below 1. -/
def end_game : List Team → Bool
  | [] => false
  | team :: rest => if team.h_p < 1 then true else end_game rest

/-- C1: for every combatant attacking a target squad, the damage starts equal
to the attacker strength; if the target defender stack is non-empty the
target defense is subtracted and exactly one defender is removed from the end
of the stack; the target health is reduced by the damage only when the
damage is strictly positive; and the possibly zero or negative damage value
is returned. -/
theorem claim_C1_attack (self : Hero) (target : Team) :
    ((self.attack target).2 =
      if target.defendors = [] then self.strength
      else self.strength - target.defense) ∧
    ((self.attack target).1.defendors =
      if target.defendors = [] then target.defendors
      else target.defendors.dropLast) ∧
    ((self.attack target).1.h_p =
      if (self.attack target).2 > 0 then target.h_p - (self.attack target).2
      else target.h_p) ∧
    (self.attack target).1.m_p = target.m_p ∧
    (self.attack target).1.defense = target.defense ∧
    (self.attack target).1.name = target.name := by
  unfold Hero.attack
  by_cases hd : target.defendors = [] <;>
    simp only [hd, ite_true, ite_false] <;>
    split_ifs <;> simp_all

/-- Byte-wise lexicographic comparison of character lists, mirroring how
CPython 2 compares the (ASCII) team-name strings that appear as the second
component of the standings tuples built on line 347. -/
def strLeB : List Char → List Char → Bool
  | [], _ => true
  | _ :: _, [] => false
  | a :: as, b :: bs =>
    if a.toNat < b.toNat then true
    else if b.toNat < a.toNat then false
    else strLeB as bs

theorem strLeB_total : ∀ a b : List Char, strLeB a b = true ∨ strLeB b a = true
  | [], _ => Or.inl rfl
  | _ :: _, [] => Or.inr rfl
  | a :: as, b :: bs => by
    simp only [strLeB]
    rcases Nat.lt_trichotomy a.toNat b.toNat with h | h | h
    · left
      simp [h]
    · have h1 : ¬ a.toNat < b.toNat := by omega
      have h2 : ¬ b.toNat < a.toNat := by omega
      simpa [h1, h2] using strLeB_total as bs
    · right
      simp [h]

theorem strLeB_trans : ∀ a b c : List Char,
    strLeB a b = true → strLeB b c = true → strLeB a c = true
  | [], _, _ => fun _ _ => rfl
  | _ :: _, [], _ => fun h _ => by simp [strLeB] at h
  | _ :: _, _ :: _, [] => fun _ h => by simp [strLeB] at h
  | a :: as, b :: bs, c :: cs => fun h1 h2 => by
    have hab : a.toNat ≤ b.toNat := by
      by_contra hcon
      have hba : b.toNat < a.toNat := by omega
      simp [strLeB, hba, Nat.lt_asymm hba] at h1
    have hbc : b.toNat ≤ c.toNat := by
      by_contra hcon
      have hcb : c.toNat < b.toNat := by omega
      simp [strLeB, hcb, Nat.lt_asymm hcb] at h2
    by_cases hac : a.toNat < c.toNat
    · simp [strLeB, hac]
    · have hqa : a.toNat = b.toNat := by omega
      have hqb : b.toNat = c.toNat := by omega
      simp only [strLeB, show ¬ a.toNat < b.toNat by omega,
        show ¬ b.toNat < a.toNat by omega, ite_false] at h1
      simp only [strLeB, show ¬ b.toNat < c.toNat by omega,
        show ¬ c.toNat < b.toNat by omega, ite_false] at h2
      simp only [strLeB, hac, show ¬ c.toNat < a.toNat by omega, ite_false]
      exact strLeB_trans as bs cs h1 h2

/-- Comparison of the `(h_p, name)` standings tuples of line 347, as CPython 2
orders them: by the integer first and by the string on ties. -/
def pairLe (a b : Int × String) : Bool :=
  if a.1 < b.1 then true
  else if b.1 < a.1 then false
  else strLeB a.2.data b.2.data

/-- The ordering relation induced by `pairLe`. -/
def pairRel (a b : Int × String) : Prop := pairLe a b = true

instance pairRel.dec : DecidableRel pairRel :=
  fun a b => instDecidableEqBool (pairLe a b) true

instance pairRel.total : IsTotal (Int × String) pairRel := by
  constructor
  intro a b
  unfold pairRel pairLe
  rcases Int.lt_trichotomy a.1 b.1 with h | h | h
  · left
    simp [h]
  · have h1 : ¬ a.1 < b.1 := by omega
    have h2 : ¬ b.1 < a.1 := by omega
    simpa [h1, h2] using strLeB_total a.2.data b.2.data
  · right
    simp [h]

instance pairRel.trans : IsTrans (Int × String) pairRel := by
  constructor
  intro a b c h1 h2
  unfold pairRel pairLe at h1 h2 ⊢
  have hab : a.1 ≤ b.1 := by
    by_contra hcon
    simp [show ¬ a.1 < b.1 by omega, show b.1 < a.1 by omega] at h1
  have hbc : b.1 ≤ c.1 := by
    by_contra hcon
    simp [show ¬ b.1 < c.1 by omega, show c.1 < b.1 by omega] at h2
  by_cases hac : a.1 < c.1
  · simp [hac]
  · simp only [show ¬ a.1 < b.1 by omega, show ¬ b.1 < a.1 by omega,
      ite_false] at h1
    simp only [show ¬ b.1 < c.1 by omega, show ¬ c.1 < b.1 by omega,
      ite_false] at h2
    simp only [hac, show ¬ c.1 < a.1 by omega, ite_false]
    exact strLeB_trans a.2.data b.2.data c.2.data h1 h2

/-- Standings computation of `battle` (dex.py lines 347-349): build the list
of `(team.h_p, team.name)` pairs, sort it ascending with Python `list.sort`
(a stable sort on the tuple order; every stable sort agrees with
`List.insertionSort` on a total preorder) and reverse it. -/
def standings (teams : List Team) : List (Int × String) :=
  (List.insertionSort pairRel (teams.map fun team => (team.h_p, team.name))).reverse

/-- One round of the interactive battle loop (dex.py lines 337-346): the
submitted tasks execute against the teams — abstracted here as an arbitrary
state transformer `exec`, since the choices come from interactive input —
and then every team is reset (lines 345-346), clearing its defender stack. -/
def run_round (exec : List Team → List Team) (teams : List Team) : List Team :=
  (exec teams).map Team.reset

/-- The `while not end_game(teams)` loop of `battle` (lines 336-350), with
explicit fuel: when the end condition holds at a round boundary the loop
stops and the standings of lines 347-350 are returned; otherwise one more
round runs. `none` means the fuel ran out before the battle ended. -/
def battleLoop (round : List Team → List Team) : Nat → List Team → Option (List (Int × String))
  | 0, _ => none
  | fuel + 1, teams =>
    if end_game teams then some (standings teams)
    else battleLoop round fuel (round teams)

theorem end_game_iff (teams : List Team) :
    end_game teams = true ↔ ∃ t ∈ teams, t.h_p < 1 := by
  induction teams with
  | nil => simp [end_game]
  | cons team rest ih => by_cases h : team.h_p < 1 <;> simp [end_game, h, ih]

theorem standings_pairwise (teams : List Team) :
    (standings teams).Pairwise (fun a b => pairLe b a = true) := by
  unfold standings
  refine List.pairwise_reverse.mpr ?_
  exact List.sorted_insertionSort pairRel (teams.map fun team => (team.h_p, team.name))

theorem standings_perm (teams : List Team) :
    (standings teams).Perm (teams.map fun team => (team.h_p, team.name)) := by
  unfold standings
  exact (List.reverse_perm _).trans (List.perm_insertionSort pairRel _)

/-- C8: after every completed round of the battle loop every team defender
stack is empty (lines 345-346 call `Team.reset` on each team), whatever the
stack held when the round began; `Team.reset` itself empties the stack and
freshly constructed teams start with an empty stack. -/
theorem claim_C8_defendors_reset (exec : List Team → List Team)
    (teams : List Team) (t : Team) (nm : String) (heroes : List Hero) :
    ((run_round exec teams).all fun x => x.defendors.isEmpty) = true ∧
    (Team.reset t).defendors = [] ∧
    (Team.init nm heroes).defendors = [] := by
  refine ⟨?_, rfl, rfl⟩
  simp [run_round, Team.reset, List.all_eq_true]

/-- C9 (amended): the battle loop stops exactly at the first round boundary
where some team HP pool is below 1 — `end_game` holds iff some team has
`h_p < 1`, the loop returns the standings when it holds and runs one more
round when it does not — and the recorded standings are the `(h_p, name)`
pairs of the teams ranked in descending lexicographic `(health, name)` order,
i.e. by descending remaining health with ties broken by descending team name
(not by registration order). -/
theorem claim_C9_amended (round : List Team → List Team) (fuel : Nat)
    (teams : List Team) :
    (end_game teams = true ↔ ∃ t ∈ teams, t.h_p < 1) ∧
    battleLoop round (fuel + 1) teams =
      (if end_game teams then some (standings teams)
       else battleLoop round fuel (round teams)) ∧
    (standings teams).Pairwise (fun a b => pairLe b a = true) ∧
    (standings teams).Perm (teams.map fun team => (team.h_p, team.name)) :=
  ⟨end_game_iff teams, rfl, standings_pairwise teams, standings_perm teams⟩

/-- Team with name A and exhausted health, used to exhibit the standings
tie-break order. -/
def teamA : Team :=
  { name := "A", h_p := 0, m_p := 0, defense := 0, players := [], defendors := [] }

/-- Team with name B and exhausted health, used to exhibit the standings
tie-break order. -/
def teamB : Team :=
  { name := "B", h_p := 0, m_p := 0, defense := 0, players := [], defendors := [] }

/-- C9 counterexample: with two squads of equal remaining health registered
in the order A, B, the recorded standings are B before A — `list.sort()`
followed by `reverse()` breaks health ties by descending name — so ties are
not preserved in squad registration order as the claim states. -/
theorem claim_C9_counterexample :
    standings [teamA, teamB] = [(0, "B"), (0, "A")] ∧
    [teamA, teamB].map (fun team => (team.h_p, team.name)) = [(0, "A"), (0, "B")] :=
  ⟨rfl, rfl⟩

theorem attack_dmg (self : Hero) (t : Team) (hd : t.defendors ≠ []) :
    (self.attack t).2 = self.strength - t.defense := by
  unfold Hero.attack
  simp [hd]

theorem attack_h_p_pos (self : Hero) (t : Team) (hd : t.defendors ≠ [])
    (hpos : self.strength - t.defense > 0) :
    (self.attack t).1.h_p = t.h_p - (self.strength - t.defense) := by
  unfold Hero.attack
  simp [hd, hpos]

theorem roarIter_defense : ∀ (n : Nat) (t : Team),
    (roarIter n t).defense = t.defense - n
  | 0, t => by simp [roarIter]
  | n + 1, t => by
    rw [roarIter, roarIter_defense n]
    simp only [Roar.affect]
    push_cast
    ring

/-- C10: no operation clamps the defense pool at zero — `Roar.affect`
subtracts 1 from the target defense unconditionally, n casts subtract n, and
an attack landing while the target defense is negative and a defender is
active deals `strength - defense`, strictly more than the attacker strength,
all of which comes off the target health pool. -/
theorem claim_C10_no_clamp (self : Hero) (t : Team) (n : Nat)
    (hd : t.defendors ≠ []) (hneg : t.defense < 0) (hs : 0 < self.strength) :
    (Roar.affect t).defense = t.defense - 1 ∧
    (roarIter n t).defense = t.defense - n ∧
    (self.attack t).2 = self.strength - t.defense ∧
    (self.attack t).2 > self.strength ∧
    (self.attack t).1.h_p = t.h_p - (self.attack t).2 := by
  refine ⟨rfl, roarIter_defense n t, attack_dmg self t hd, ?_, ?_⟩
  · rw [attack_dmg self t hd]
    omega
  · rw [attack_h_p_pos self t hd (by omega), attack_dmg self t hd]

/-- Attacking hero used in the C10 witness. -/
def heroC10 : Hero := Hero.init "atk"

/-- Target team with negative defense and one active defender, used in the
C10 witness. -/
def tC10 : Team :=
  { name := "T", h_p := 10, m_p := 0, defense := -2, players := [],
    defendors := [Hero.init "d"] }

theorem claim_C10_witness :
    tC10.defendors ≠ [] ∧ tC10.defense < 0 ∧ 0 < heroC10.strength ∧
    ((Roar.affect tC10).defense = tC10.defense - 1 ∧
     (roarIter 3 tC10).defense = tC10.defense - (3 : Nat) ∧
     (heroC10.attack tC10).2 = heroC10.strength - tC10.defense ∧
     (heroC10.attack tC10).2 > heroC10.strength ∧
     (heroC10.attack tC10).1.h_p = tC10.h_p - (heroC10.attack tC10).2) :=
  ⟨by decide, by decide, by decide,
    claim_C10_no_clamp heroC10 tC10 3 (by decide) (by decide) (by decide)⟩

/-- State of the `Battle` datastore model (dex.py lines 167-179), restricted
to the fields the battle methods read or write. The superclass
`gamemodel.Game` (not part of this repository) supplies the two player
identities; `Battle.initialize` (line 183) overwrites `players` with exactly
`[player1, player2]`. The source declares `tasks` as a `StringListProperty`
but `finish_round` (line 261) appends a Python list of task tuples to it, so
the field is typed here by that use. -/
structure Battle where
  player1 : String
  player2 : String
  players : List String
  teams : List (List Hero)
  moves1 : List String
  moves2 : List String
  tasks : List (List Int)
  health : List Int
  magic : List Int
  defense : List Int
deriving DecidableEq

/-- Python list indexing, raising `IndexError` out of range. -/
def pyListGet (l : List Int) (i : Nat) : Except String Int :=
  match l.get? i with
  | some v => Except.ok v
  | none => Except.error "IndexError: list index out of range"

/-- Per-index stat totals computed by the loop of `Battle.initialize`
(lines 184-193): slot `i` of the length-`n` zero-initialised list receives
the sum of `stat` over the heroes of team `i`; slots beyond the team count
stay 0. -/
def statSums (stat : Hero → Int) (teams : List (List Hero)) (n : Nat) : List Int :=
  (List.range n).map fun i =>
    match teams.get? i with
    | some team => team.foldl (fun acc h => acc + stat h) 0
    | none => 0

/-- `Battle.initialize` (lines 181-196): sets `players = [player1, player2]`,
zero-initialises the three length-2 stat lists and accumulates each team
member h_p, m_p and defense into slot `i` of the corresponding list. If there
are more teams than players the write `health[i] += hero.h_p` falls outside
the list and CPython raises `IndexError` (only possible for a team with at
least one hero; an excess empty team performs no write). The name
`initialize` is shortened to `init_stats` here. -/
def Battle.init_stats (self : Battle) : Except String Battle :=
  let players := [self.player1, self.player2]
  if (self.teams.drop players.length).all List.isEmpty then
    Except.ok { self with
      players := players
      health := statSums (fun h => h.h_p) self.teams players.length
      magic := statSums (fun h => h.m_p) self.teams players.length
      defense := statSums (fun h => h.defense) self.teams players.length }
  else
    Except.error "IndexError: list index out of range"

/-- `Battle.get_moves` (lines 198-206). -/
def Battle.get_moves (self : Battle) (i : Int) : Except String (List String) :=
  if i = 1 then Except.ok self.moves1
  else if i = 2 then Except.ok self.moves2
  else Except.error "Index out of range, only moves[1...2]"

/-- `Battle.submit_moves` (lines 208-236). Line 211 rejects a non-member
user; line 213 then reads `self.players.index[user]` — subscripting the bound
list method `index` instead of calling it — which CPython 2 answers with a
`TypeError` before any command is examined, so every call that passes the
membership check fails. (Were that line repaired, line 219 would next raise
`TypeError` indexing `self.teams[user]` with a user object, and lines
225/228/230 would raise `AttributeError` reading `hero.agility` and
`hero.ability` from the list iterator bound on line 219.) -/
def Battle.submit_moves (self : Battle) (user : String)
    (commands : List (Int × Int)) : Except String (Battle × String) :=
  if user ∈ self.players then
    Except.error "TypeError: builtin_function_or_method object is unsubscriptable"
  else
    Except.error "Invalid user"

/-- The malformed-command guard of line 221 exactly as written, under Python
chained-comparison semantics: `3 < choice < 1 or 1 > target > len(self.players)`
means `(3 < choice and choice < 1) or (1 > target and target > len(players))`. -/
def malformed_guard (choice target : Int) (nplayers : Nat) : Bool :=
  (decide (3 < choice) && decide (choice < 1)) ||
  (decide (1 > target) && decide (target > (nplayers : Int)))

/-- The acceptance test of line 228 for an Ability choice: the squad magic
pool must strictly exceed the ability cost. -/
def ability_accept (magic cost : Int) : Bool :=
  decide (magic > cost)

/-- `sys.maxint` of the 64-bit CPython 2 runtime, the priority given to
Defend moves on line 227. -/
def sys_maxint : Int := 9223372036854775807

/-- Priority key recorded in the move tuples of lines 224-230: the actor
agility for Attack (choice 1) and Ability (choice 3) moves, `sys.maxint` for
Defend (choice 2) moves. -/
def move_priority (agility choice : Int) : Int :=
  if choice = 2 then sys_maxint else agility

/-- The Python object bound to a task by lines 250-255 of `finish_round`:
the hero bound method `attack` for kind 1, the hero `ability` object itself
(not its `affect` method) for kind 3, and the bound method `defend`
otherwise. -/
inductive BoundCall where
  | attackMethod (h : Hero)
  | abilityObject (a : AbilityKind)
  | defendMethod (h : Hero)
deriving DecidableEq

/-- Dispatch of lines 250-255: `if tup[1] == 1: call = hero.attack`,
`elif tup[1] == 3: call = hero.ability`, `else: call = hero.defend`. -/
def task_call (hero : Hero) (kind : Int) : BoundCall :=
  if kind = 1 then BoundCall.attackMethod hero
  else if kind = 3 then BoundCall.abilityObject hero.ability
  else BoundCall.defendMethod hero

/-- `Battle.finish_round` (lines 238-261). Lines 242-243 fetch the last
move-set of each player (raising `IndexError` when a moves list is empty);
lines 244-245 then build the round pools by calling `Team` with the three
positional arguments `(self.health[i], self.magic[i], self.defense[i])`,
but `Team.__init__` accepts only `(self, name, players)`, so for any
non-empty player list CPython raises `TypeError` — after evaluating the three
index expressions for `i = 0` — before any task is built, sorted or executed.
With no players the comprehensions are all empty and the empty task list is
appended to `self.tasks`. -/
def Battle.finish_round (self : Battle) : Except String Battle := do
  let _moves ← (List.range self.players.length).mapM fun i => do
    let ms ← self.get_moves ((i : Int) + 1)
    match ms.getLast? with
    | some m => Except.ok m
    | none => Except.error "IndexError: list index out of range"
  match self.players with
  | [] => Except.ok { self with tasks := self.tasks ++ [[]] }
  | _ :: _ => do
    let _h ← pyListGet self.health 0
    let _m ← pyListGet self.magic 0
    let _d ← pyListGet self.defense 0
    Except.error "TypeError: __init__() takes exactly 3 arguments (4 given)"

/-- A two-player battle with both move-sets submitted for the round, the
configuration in which the claim expects `finish_round` to produce a sorted
task list. -/
def bC2 : Battle :=
  { player1 := "alice", player2 := "bob", players := ["alice", "bob"],
    teams := [[Hero.init "A"], [Hero.init "B"]],
    moves1 := ["[[1, 1, 1]]"], moves2 := ["[[1, 1, 0]]"],
    tasks := [], health := [1, 1], magic := [1, 1], defense := [1, 1] }

/-- C2: round resolution on a ready two-player battle does not produce a
sorted task list — it raises `TypeError` constructing the round pools — while
the priority keys that the (dead) submission code would record do match the
claim: agility for Attack and Ability moves, `sys.maxint` for Defend moves. -/
theorem claim_C2_finish_round_raises :
    Battle.finish_round bC2 =
      Except.error "TypeError: __init__() takes exactly 3 arguments (4 given)" ∧
    move_priority 5 1 = 5 ∧ move_priority 5 2 = sys_maxint ∧ move_priority 5 3 = 5 :=
  ⟨rfl, rfl, rfl, rfl⟩

/-- A two-player battle whose acting squad has ample mana (5) for the Heal
ability of its mage (cost 2), used to evaluate a submission that the claim
expects to reserve mana. -/
def bC3 : Battle :=
  { player1 := "alice", player2 := "bob", players := ["alice", "bob"],
    teams := [[WeakMage.init "Medic!"], [Hero.init "B"]],
    moves1 := [], moves2 := [],
    tasks := [], health := [1, 1], magic := [5, 1], defense := [1, 1] }

/-- C3: submitting an Ability move never updates the stored mana pool —
`submit_moves` raises `TypeError` at line 213 on every call by a session
member, leaving `self.magic` untouched (and even past that line the loop only
decrements its local `magic` copy, never writing it back). -/
theorem claim_C3_submit_moves_raises :
    Battle.submit_moves bC3 "alice" [(3, 2)] =
      Except.error "TypeError: builtin_function_or_method object is unsubscriptable" ∧
    bC3.magic = [5, 1] :=
  ⟨rfl, rfl⟩

/-- A ready two-player battle whose submitted move-sets include an Ability
choice (kind 3), used to evaluate task execution. -/
def bC4 : Battle :=
  { player1 := "carol", player2 := "dave", players := ["carol", "dave"],
    teams := [[WeakMage.init "Medic!"], [WeakFighter.init "Brave"]],
    moves1 := ["[[2, 3, 1]]"], moves2 := ["[[1, 1, 0]]"],
    tasks := [], health := [1, 1], magic := [2, 1], defense := [1, 1] }

/-- Sample hero used to exhibit the task dispatch of lines 250-255. -/
def heroC4 : Hero := WeakFighter.init "Brave"

/-- C4: round resolution never executes any task — it raises `TypeError`
building the pools — and the dispatch of lines 250-255 binds the raw
`ability` object (which has no `__call__`) to an Ability task rather than the
ability effect method, unlike the attack and defend cases which bind the
corresponding hero methods. -/
theorem claim_C4_task_execution :
    Battle.finish_round bC4 =
      Except.error "TypeError: __init__() takes exactly 3 arguments (4 given)" ∧
    task_call heroC4 3 = BoundCall.abilityObject heroC4.ability ∧
    task_call heroC4 1 = BoundCall.attackMethod heroC4 ∧
    task_call heroC4 2 = BoundCall.defendMethod heroC4 :=
  ⟨rfl, rfl, rfl, rfl⟩

/-- A two-player battle receiving a command whose target squad index 99 is
far outside the valid range. -/
def bC5 : Battle :=
  { player1 := "erin", player2 := "frank", players := ["erin", "frank"],
    teams := [[Hero.init "A"], [Hero.init "B"]],
    moves1 := [], moves2 := [],
    tasks := [], health := [1, 1], magic := [1, 1], defense := [1, 1] }

/-- C5: the malformed-command guard of line 221 is unsatisfiable — for every
choice, target and squad count it evaluates to false under Python chained
comparison, so no command is ever skipped by it — and a submission carrying
an out-of-range target raises `TypeError` at line 213 instead of being
accepted with the command skipped. -/
theorem claim_C5_malformed_guard :
    (∀ choice target : Int, ∀ nplayers : Nat,
      malformed_guard choice target nplayers = false) ∧
    Battle.submit_moves bC5 "erin" [(1, 99)] =
      Except.error "TypeError: builtin_function_or_method object is unsubscriptable" := by
  refine ⟨?_, rfl⟩
  intro choice target nplayers
  simp only [malformed_guard, Bool.or_eq_false_iff, Bool.and_eq_false_iff,
    decide_eq_false_iff_not, not_lt]
  omega

/-- A two-player battle whose acting squad mana pool (2) equals the Heal
ability cost (2) of its mage exactly. -/
def bC6 : Battle :=
  { player1 := "gus", player2 := "hana", players := ["gus", "hana"],
    teams := [[WeakMage.init "Medic!"], [Hero.init "B"]],
    moves1 := [], moves2 := [],
    tasks := [], health := [1, 1], magic := [2, 1], defense := [1, 1] }

/-- C6: the acceptance test of line 228 is indeed strict — with mana equal to
the cost it evaluates to false — but the enclosing `submit_moves` call never
reaches it: any submission by a session member raises `TypeError` at
line 213, rather than returning with the move rejected and mana unchanged. -/
theorem claim_C6_mana_equal_cost :
    ability_accept 2 (AbilityKind.cost AbilityKind.heal) = false ∧
    Battle.submit_moves bC6 "gus" [(3, 1)] =
      Except.error "TypeError: builtin_function_or_method object is unsubscriptable" ∧
    bC6.magic = [2, 1] :=
  ⟨rfl, rfl, rfl⟩

/-- Battle used to contrast the two squad constructors on the same roster. -/
def bC7 : Battle :=
  { player1 := "ivy", player2 := "jack", players := ["ivy", "jack"],
    teams := [[WeakMage.init "Medic!"], [WeakFighter.init "Brave"]],
    moves1 := [], moves2 := [],
    tasks := [], health := [], magic := [], defense := [] }

/-- C7: the aggregate mana pool of a `Team` is not the sum of the member mana
stats — `Team.__init__` line 121 adds `player.strength` instead, so a team
of one WeakMage (mana 2, strength 1) gets mana pool 1 — while health and
defense are summed as claimed, and `Battle.initialize` on the same roster
correctly sums the member `m_p` values (magic slot 2 for the mage team). -/
theorem claim_C7_team_mana_pool :
    (Team.init "t" [WeakMage.init "Medic!"]).m_p = 1 ∧
    (WeakMage.init "Medic!").m_p = 2 ∧
    (WeakMage.init "Medic!").strength = 1 ∧
    (Team.init "t" [WeakMage.init "Medic!"]).h_p = 1 ∧
    (Team.init "t" [WeakMage.init "Medic!"]).defense = 1 ∧
    (Battle.init_stats bC7).toOption.map (fun b => b.magic) = some [2, 1] :=
  ⟨rfl, rfl, rfl, rfl, rfl, rfl⟩
